import Mathlib

/-!
Shallow embedding of the FastMCP tool server (`main.py`, `fastmcp.py`,
`exchangerate.py`, `weather.py`).

Conventions of the embedding:
* An upstream HTTP call (or store query) is modelled by `Upstream α`: either
  the parsed response data (`ok`) or a raised exception carrying its message
  (`raise`).  The `try/except` blocks of the source become `match` on this.
* JSON scalar values are `JVal` (null / number / string); Python `None`
  becomes `JVal.null` when it is projected into a payload, and `Option` when
  it is the result of a `dict.get`.
* Python `dict` payloads returned by the tools are association lists
  `List (String × JVal)`, so presence and absence of a field is expressible;
  `jget` is `dict.get` on them.
* Python numbers (floats parsed from JSON) are modelled as exact rationals;
  `round(x, 4)` is `pyRound4`, round-half-to-even at 4 decimal digits,
  Python's default rounding.
* `str.upper()` / `str.lower()` are `strUpper` / `strLower` (per-character
  ASCII case mapping).
-/

/-- Outcome of an upstream HTTP request or store query: the parsed data, or a
raised exception carrying the message the handler interpolates as the cause. -/
inductive Upstream (α : Type) where
  | raise (cause : String)
  | ok (data : α)

/-- JSON scalar values appearing in tool payloads. -/
inductive JVal where
  | null
  | num (q : ℚ)
  | str (s : String)
deriving DecidableEq

/-- Python `dict.get` on an association-list payload: first binding wins,
`none` when the key is absent. -/
def jget (l : List (String × JVal)) (k : String) : Option JVal :=
  match l with
  | [] => none
  | (k0, v) :: rest => if k0 = k then some v else jget rest k

/-- `str.upper()` (ASCII case mapping, as applied to currency codes). -/
def strUpper (s : String) : String := ⟨s.data.map Char.toUpper⟩

/-- `str.lower()` (ASCII case mapping). -/
def strLower (s : String) : String := ⟨s.data.map Char.toLower⟩

/-- Projection of a `dict.get` result into a payload value: Python `None`
serialises as JSON null. -/
def optNum : Option ℚ → JVal
  | none => .null
  | some q => .num q

/-- Projection of an optional string into a payload value. -/
def optStr : Option String → JVal
  | none => .null
  | some s => .str s

/-- Round-half-to-even of a rational to an integer (Python's `round` on an
exact value). -/
def roundHalfEven (q : ℚ) : ℤ :=
  let n := ⌊q⌋
  let r := q - (n : ℚ)
  if r < 1/2 then n
  else if r > 1/2 then n + 1
  else if n % 2 = 0 then n else n + 1

/-- Python `round(x, 4)`: round half to even at 4 fractional decimal digits. -/
def pyRound4 (q : ℚ) : ℚ := (roundHalfEven (q * 10000) : ℚ) / 10000

/- ------------------------------------------------------------------
Exchange-rate tool (`get_exchange_rate` in `main.py`, `fastmcp.py`,
`exchangerate.py`; the three copies have identical logic).
------------------------------------------------------------------ -/

/-- The parsed JSON body of a successful Frankfurter response, as far as the
handler reads it: the `rates` mapping and the optional `date` field. -/
structure RatesData where
  rates : List (String × ℚ)
  date : Option String

/-- Python `dict.get` on the `rates` mapping. -/
def dictGet (l : List (String × ℚ)) (k : String) : Option ℚ :=
  match l with
  | [] => none
  | (k0, v) :: rest => if k0 = k then some v else dictGet rest k

/-- `get_exchange_rate(source_currency, destination_currency, amount)`:
upper-cases both codes, looks the destination up in `data["rates"]`, returns
the error dict on a missing rate or a raised request, otherwise the quote
dict with `converted = round(rate * amount, 4)`. -/
def get_exchange_rate (source_currency destination_currency : String) (amount : ℚ)
    (resp : Upstream RatesData) : List (String × JVal) :=
  match resp with
  | .raise cause => [("error", .str ("API request failed: " ++ cause))]
  | .ok data =>
      match dictGet data.rates (strUpper destination_currency) with
      | none => [("error", .str "Invalid currency code or unsupported conversion.")]
      | some rate =>
          [("from", .str (strUpper source_currency)),
           ("to", .str (strUpper destination_currency)),
           ("amount", .num amount),
           ("rate", .num rate),
           ("converted", .num (pyRound4 (rate * amount))),
           ("date", optStr data.date)]

/- ------------------------------------------------------------------
Weather tool.  Two variants exist in the source: `get_weather` in
`main.py`/`fastmcp.py` (direct request, `time` included), and
`weather.py`'s `fetch_weather` + `get_weather` (no `time` field).
------------------------------------------------------------------ -/

/-- The fields of the `current_weather` object the handlers read via `.get`;
`none` models an absent key. -/
structure CurrentWeather where
  temperature : Option ℚ
  windspeed : Option ℚ
  winddirection : Option ℚ
  weathercode : Option ℚ
  time : Option String

/-- The parsed Open-Meteo response body as far as the handlers read it:
`none` models a body without a `current_weather` key. -/
structure WeatherResponse where
  current_weather : Option CurrentWeather

/-- `get_weather(latitude, longitude)` of `main.py`/`fastmcp.py`: a raised
request yields the transport error dict; a body without `current_weather`
yields the no-data error dict; otherwise the five fields are projected via
`.get` (absent ones as null), `time` included. -/
def get_weather (resp : Upstream WeatherResponse) : List (String × JVal) :=
  match resp with
  | .raise cause => [("error", .str ("Failed to fetch weather: " ++ cause))]
  | .ok data =>
      match data.current_weather with
      | none => [("error", .str "No weather data available.")]
      | some current =>
          [("temperature", optNum current.temperature),
           ("windspeed", optNum current.windspeed),
           ("winddirection", optNum current.winddirection),
           ("weathercode", optNum current.weathercode),
           ("time", optStr current.time)]

namespace WeatherPy

/-- What `weather.py`'s `fetch_weather` returns: the parsed response body on
success, or the dict `{"error": "Failed to fetch weather: <cause>"}` when the
request raised (it never returns `None` despite its annotation). -/
inductive FetchResult where
  | payload (d : WeatherResponse)
  | errorDict (msg : String)

/-- `fetch_weather(lat, lon)` of `weather.py`. -/
def fetch_weather (resp : Upstream WeatherResponse) : FetchResult :=
  match resp with
  | .raise cause => .errorDict ("Failed to fetch weather: " ++ cause)
  | .ok d => .payload d

/-- `get_weather(lat, lon)` of `weather.py`: checks
`result is None or "current_weather" not in result`.  An `errorDict` from
`fetch_weather` has no `current_weather` key, so it falls into the same
"No weather data available." branch as a body genuinely missing the key;
the success payload has no `time` entry. -/
def get_weather (resp : Upstream WeatherResponse) : List (String × JVal) :=
  match fetch_weather resp with
  | .errorDict _ => [("error", .str "No weather data available.")]
  | .payload d =>
      match d.current_weather with
      | none => [("error", .str "No weather data available.")]
      | some cw =>
          [("temperature", optNum cw.temperature),
           ("windspeed", optNum cw.windspeed),
           ("winddirection", optNum cw.winddirection),
           ("weathercode", optNum cw.weathercode)]

end WeatherPy

/- ------------------------------------------------------------------
Product-info tool (`get_product_info` in `main.py` and `fastmcp.py`, two
identical copies).
------------------------------------------------------------------ -/

/-- A row of the `products` table, with the columns the handler touches:
`id` (passed to the media query), `user_id` and `name` (filter columns),
`description` and `price` read via `.get` with defaults. -/
structure ProductRow where
  id : String
  user_id : String
  name : String
  description : Option JVal
  price : Option JVal

/-- A row of the `product_media` table as selected: `path` and `type`. -/
structure MediaRow where
  path : String
  type : JVal

/-- The per-product dict assembled by the handler. -/
structure ProductInfo where
  name : String
  description : JVal
  price : JVal
  images : List String
  videos : List String
deriving DecidableEq

/-- The media partition loop: `type == 0` appends to `images`, `type == 1`
appends to `videos`, anything else is skipped. -/
def processMedia (rows : List MediaRow) : List String × List String :=
  rows.foldl
    (fun acc media =>
      if media.type = JVal.num 0 then (acc.1 ++ [media.path], acc.2)
      else if media.type = JVal.num 1 then (acc.1, acc.2 ++ [media.path])
      else acc)
    ([], [])

/-- The inner `try/except` around one product's media query: a raised query
leaves `images = videos = []`; otherwise the returned rows are partitioned.
(The `if media_response.data:` truthiness check is absorbed: the loop over an
empty list also leaves both partitions empty.) -/
def mediaFor (mediaStore : String → Upstream (List MediaRow)) (product_id : String) :
    List String × List String :=
  match mediaStore product_id with
  | .raise _ => ([], [])
  | .ok rows => processMedia rows

/-- Assembly of one `product_info` dict: `name` verbatim, `description` and
`price` via `.get` with their defaults, plus the media partitions. -/
def buildProduct (mediaStore : String → Upstream (List MediaRow)) (p : ProductRow) :
    ProductInfo :=
  let mv := mediaFor mediaStore p.id
  { name := p.name
    description := p.description.getD (JVal.str "No description")
    price := p.price.getD (JVal.str "N/A")
    images := mv.1
    videos := mv.2 }

/-- Python truthiness of the optional `name` argument: `if name:` is taken
exactly when `name` is present and non-empty. -/
def truthy : Option String → Bool
  | none => false
  | some s => !s.isEmpty

/-- Bool-valued infix (substring) test on character lists. -/
def infixOf (needle : List Char) : List Char → Bool
  | [] => needle.isEmpty
  | c :: rest => needle.isPrefixOf (c :: rest) || infixOf needle rest

/-- `.ilike("name", "%" + name + "%")`: case-insensitive substring match. -/
def ilikeContains (haystack pat : String) : Bool :=
  infixOf (strLower pat).data (strLower haystack).data

/-- The primary query as built by the handler: equality filter on `user_id`
always; the `ilike` substring filter on `name` only when the `name` argument
is truthy. -/
def filteredRows (rows : List ProductRow) (user_id : String) (name : Option String) :
    List ProductRow :=
  let byUser := rows.filter (fun r => r.user_id == user_id)
  if truthy name then byUser.filter (fun r => ilikeContains r.name (name.getD ""))
  else byUser

/-- `get_product_info(user_id, name)`: the outer `try/except` swallows a
raised primary query and returns `[]`; `if not products_response.data:`
returns `[]` on no rows; otherwise one `product_info` dict per returned row,
in order, with per-row media isolation inside `buildProduct`. -/
def get_product_info (primary : Upstream (List ProductRow))
    (mediaStore : String → Upstream (List MediaRow))
    (user_id : String) (name : Option String) : List ProductInfo :=
  match primary with
  | .raise _ => []
  | .ok rows =>
      let fr := filteredRows rows user_id name
      if fr.isEmpty then []
      else fr.map (buildProduct mediaStore)

/- ------------------------------------------------------------------
Helper lemmas shared by several results.
------------------------------------------------------------------ -/

/-- On a successful primary query, `get_product_info` is one `buildProduct`
per filtered row: the `if not products_response.data: return []` early exit
coincides with mapping over the empty list. -/
theorem get_product_info_ok (rows : List ProductRow)
    (mediaStore : String → Upstream (List MediaRow)) (uid : String) (nf : Option String) :
    get_product_info (.ok rows) mediaStore uid nf
      = (filteredRows rows uid nf).map (buildProduct mediaStore) := by
  show (if (filteredRows rows uid nf).isEmpty then []
        else (filteredRows rows uid nf).map (buildProduct mediaStore)) = _
  by_cases h : (filteredRows rows uid nf).isEmpty
  · rw [if_pos h, List.isEmpty_iff.mp h]; rfl
  · rw [if_neg h]

/-- When the destination code is found in the `rates` mapping,
`get_exchange_rate` returns the full quote dict. -/
theorem get_exchange_rate_found (src dst : String) (amount : ℚ) (data : RatesData)
    (rate : ℚ) (h : dictGet data.rates (strUpper dst) = some rate) :
    get_exchange_rate src dst amount (.ok data)
      = [("from", .str (strUpper src)), ("to", .str (strUpper dst)),
         ("amount", .num amount), ("rate", .num rate),
         ("converted", .num (pyRound4 (rate * amount))),
         ("date", optStr data.date)] := by
  simp [get_exchange_rate, h]

/-- The media partition loop, with an arbitrary accumulator, produces exactly
the `type == 0` paths appended to the first component and the `type == 1`
paths appended to the second. -/
theorem processMedia_aux (rows : List MediaRow) (acc : List String × List String) :
    rows.foldl
      (fun acc media =>
        if media.type = JVal.num 0 then (acc.1 ++ [media.path], acc.2)
        else if media.type = JVal.num 1 then (acc.1, acc.2 ++ [media.path])
        else acc)
      acc
      = (acc.1 ++ (rows.filter (fun m => decide (m.type = JVal.num 0))).map MediaRow.path,
         acc.2 ++ (rows.filter (fun m => decide (m.type = JVal.num 1))).map MediaRow.path) := by
  induction rows generalizing acc with
  | nil => simp
  | cons m rest ih =>
      by_cases h0 : m.type = JVal.num 0
      · have h1 : ¬ m.type = JVal.num 1 := by rw [h0]; intro h; cases h
        simp [List.foldl_cons, h0, h1, ih, List.filter_cons]
      · by_cases h1 : m.type = JVal.num 1
        · simp [List.foldl_cons, h0, h1, ih, List.filter_cons]
        · simp [List.foldl_cons, h0, h1, ih, List.filter_cons]

/- ------------------------------------------------------------------
Concrete inputs used by witnesses and counterexamples.
------------------------------------------------------------------ -/

/-- A mocked Frankfurter response: one rate, `EUR ↦ 0.92`, dated. -/
def c3Data : RatesData := { rates := [("EUR", (92:ℚ)/100)], date := some "2024-01-01" }

/-- First product of the media-isolation scenario: real media exist for it. -/
def c2Product1 : ProductRow :=
  { id := "p1", user_id := "u", name := "Alpha",
    description := some (JVal.str "first product"), price := some (JVal.num 10) }

/-- Second product of the media-isolation scenario: its media query raises. -/
def c2Product2 : ProductRow :=
  { id := "p2", user_id := "u", name := "Beta",
    description := none, price := none }

/-- Media store for the isolation scenario: the query succeeds for `p1` with
one image and one video, and raises for every other product id. -/
def c2MediaStore : String → Upstream (List MediaRow) :=
  fun pid =>
    if pid = "p1" then .ok [{ path := "a.png", type := JVal.num 0 },
                            { path := "a.mp4", type := JVal.num 1 }]
    else .raise "timeout"

/-- A fully-populated `current_weather` object. -/
def c6CW : CurrentWeather :=
  { temperature := some 21, windspeed := some 5, winddirection := some 180,
    weathercode := some 3, time := some "2024-01-01T00:00" }

/- ------------------------------------------------------------------
Claim results.
------------------------------------------------------------------ -/

/-- Claim C1, counterexample: a primary-query fault is reported exactly as an
empty product list — `get_product_info` on a raised primary query returns the
same value as on a successful query with zero rows, so the two outcomes are
not distinguishable and a store fault IS reported as an empty sequence,
contradicting the claim. -/
theorem c1_counterexample :
    get_product_info (.raise "network down") (fun _ => .ok []) "u1" none
      = get_product_info (.ok []) (fun _ => .ok []) "u1" none
    ∧ get_product_info (.raise "network down") (fun _ => .ok []) "u1" none = [] := by
  constructor
  · rw [get_product_info_ok]; simp [filteredRows]; rfl
  · rfl

/-- Claim C1, amended: if the primary product query returns no rows the
result is the empty sequence, and if the primary query raises, the outer
exception handler swallows the fault and the result is again the empty
sequence — the two outcomes coincide. -/
theorem get_product_info_primary_fault_swallowed :
    (∀ (mediaStore : String → Upstream (List MediaRow)) (uid : String)
        (nf : Option String) (cause : String),
        get_product_info (.raise cause) mediaStore uid nf = [])
    ∧ (∀ (mediaStore : String → Upstream (List MediaRow)) (uid : String)
        (nf : Option String),
        get_product_info (.ok []) mediaStore uid nf = []) := by
  constructor
  · intro m u n c; rfl
  · intro m u n; rw [get_product_info_ok]; simp [filteredRows]

/-- Claim C2: on a successful primary query the call always succeeds with one
record per returned row, each built by `buildProduct` whose `mediaFor` maps a
raised media query to empty partitions; concretely, with two products where
only the second's media query raises, both products are returned — the first
with its real media, the second with empty `images` and `videos`. -/
theorem get_product_info_media_isolation :
    (∀ (rows : List ProductRow) (mediaStore : String → Upstream (List MediaRow))
        (uid : String) (nf : Option String),
        get_product_info (.ok rows) mediaStore uid nf
          = (filteredRows rows uid nf).map (buildProduct mediaStore))
    ∧ get_product_info (.ok [c2Product1, c2Product2]) c2MediaStore "u" none
        = [{ name := "Alpha", description := JVal.str "first product",
             price := JVal.num 10, images := ["a.png"], videos := ["a.mp4"] },
           { name := "Beta", description := JVal.str "No description",
             price := JVal.str "N/A", images := [], videos := [] }] := by
  refine ⟨get_product_info_ok, ?_⟩
  rw [get_product_info_ok]
  have h1 : c2MediaStore "p1" = .ok [{ path := "a.png", type := JVal.num 0 },
                                     { path := "a.mp4", type := JVal.num 1 }] := by
    simp [c2MediaStore]
  have h2 : c2MediaStore "p2" = .raise "timeout" := by
    simp [c2MediaStore]
  simp [filteredRows, truthy, c2Product1, c2Product2, buildProduct, mediaFor,
        h1, h2, processMedia]

/-- Claim C3: whenever the upstream `rates` mapping contains the upper-cased
destination code, the success payload has `converted = round(rate * amount, 4)`
(round half to even, Python's default) and `from`/`to` are the upper-cased
input codes, whatever the input's case. -/
theorem get_exchange_rate_success_payload :
    ∀ (src dst : String) (amount : ℚ) (data : RatesData) (rate : ℚ),
      dictGet data.rates (strUpper dst) = some rate →
      get_exchange_rate src dst amount (.ok data)
        = [("from", .str (strUpper src)), ("to", .str (strUpper dst)),
           ("amount", .num amount), ("rate", .num rate),
           ("converted", .num (pyRound4 (rate * amount))),
           ("date", optStr data.date)] := by
  intro src dst amount data rate h
  exact get_exchange_rate_found src dst amount data rate h

/-- Claim C3, witness: `get_exchange_rate("usd", "eur", 10)` against a mock
with `EUR ↦ 0.92` yields `from = "USD"`, `to = "EUR"`, `converted = 9.2`. -/
theorem get_exchange_rate_success_payload_witness :
    dictGet c3Data.rates (strUpper "eur") = some ((92:ℚ)/100)
    ∧ get_exchange_rate "usd" "eur" 10 (.ok c3Data)
        = [("from", .str "USD"), ("to", .str "EUR"), ("amount", .num 10),
           ("rate", .num ((92:ℚ)/100)), ("converted", .num ((46:ℚ)/5)),
           ("date", .str "2024-01-01")] := by
  have hu : strUpper "eur" = "EUR" := by decide
  have h : dictGet c3Data.rates (strUpper "eur") = some ((92:ℚ)/100) := by
    rw [hu]; simp [c3Data, dictGet]
  refine ⟨h, ?_⟩
  rw [get_exchange_rate_success_payload "usd" "eur" 10 c3Data ((92:ℚ)/100) h]
  have hu2 : strUpper "usd" = "USD" := by decide
  have hc : pyRound4 ((92:ℚ)/100 * 10) = (46:ℚ)/5 := by
    norm_num [pyRound4, roundHalfEven]
  rw [hu, hu2, hc]
  rfl

/-- Claim C4: when the upstream request succeeds but the `rates` mapping does
not contain the upper-cased destination code, the result is exactly the error
dict `"Invalid currency code or unsupported conversion."` and contains no
`converted` field. -/
theorem get_exchange_rate_unknown_code :
    ∀ (src dst : String) (amount : ℚ) (data : RatesData),
      dictGet data.rates (strUpper dst) = none →
      get_exchange_rate src dst amount (.ok data)
          = [("error", .str "Invalid currency code or unsupported conversion.")]
      ∧ jget (get_exchange_rate src dst amount (.ok data)) "converted" = none := by
  intro src dst amount data h
  have he : get_exchange_rate src dst amount (.ok data)
      = [("error", .str "Invalid currency code or unsupported conversion.")] := by
    simp [get_exchange_rate, h]
  exact ⟨he, by rw [he]; simp [jget]⟩

/-- Claim C4, witness: requesting `JPY` against a mock whose `rates` mapping
holds only `EUR` yields the error dict and no `converted` field. -/
theorem get_exchange_rate_unknown_code_witness :
    dictGet c3Data.rates (strUpper "jpy") = none
    ∧ get_exchange_rate "usd" "jpy" 10 (.ok c3Data)
        = [("error", .str "Invalid currency code or unsupported conversion.")]
    ∧ jget (get_exchange_rate "usd" "jpy" 10 (.ok c3Data)) "converted" = none := by
  have hu : strUpper "jpy" = "JPY" := by decide
  have h : dictGet c3Data.rates (strUpper "jpy") = none := by
    rw [hu]; simp [c3Data, dictGet]
  have hm := get_exchange_rate_unknown_code "usd" "jpy" 10 c3Data h
  exact ⟨h, hm.1, hm.2⟩

/-- Claim C5: in `weather.py`, a transport failure is reported as
`"No weather data available."` — `fetch_weather` builds the dict
`{"error": "Failed to fetch weather: <cause>"}`, but `get_weather`'s
`"current_weather" not in result` check swallows it, so the transport error
message constructed by the code itself is unreachable and the two error kinds
are conflated; the `main.py`/`fastmcp.py` variant keeps them distinct. -/
theorem weatherpy_get_weather_conflates_transport_error :
    WeatherPy.get_weather (.raise "timeout") = [("error", .str "No weather data available.")]
    ∧ WeatherPy.fetch_weather (.raise "timeout")
        = .errorDict "Failed to fetch weather: timeout"
    ∧ get_weather (.raise "timeout")
        = [("error", .str "Failed to fetch weather: timeout")] := by
  refine ⟨rfl, ?_, ?_⟩
  · show WeatherPy.FetchResult.errorDict ("Failed to fetch weather: " ++ "timeout") = _
    rfl
  · show [("error", JVal.str ("Failed to fetch weather: " ++ "timeout"))] = _
    rfl

/-- Claim C6, counterexample: a successful call to `weather.py`'s
`get_weather` (all current-weather fields present, no error field in the
result) yields a payload with no `time` field, so `time` is not included in
every variant of the tool. -/
theorem c6_counterexample :
    jget (WeatherPy.get_weather (.ok ⟨some c6CW⟩)) "time" = none
    ∧ jget (WeatherPy.get_weather (.ok ⟨some c6CW⟩)) "error" = none := by
  constructor <;>
    simp [WeatherPy.get_weather, WeatherPy.fetch_weather, c6CW, jget]

/-- Claim C6, amended: the `main.py`/`fastmcp.py` variant's success payload
always contains a `time` field (null when the upstream omits it), while the
`weather.py` variant's success payload never contains one. -/
theorem get_weather_time_field_by_variant :
    ∀ (cw : CurrentWeather),
      jget (get_weather (.ok ⟨some cw⟩)) "time" = some (optStr cw.time)
      ∧ jget (WeatherPy.get_weather (.ok ⟨some cw⟩)) "time" = none := by
  intro cw
  constructor <;>
    simp [get_weather, WeatherPy.get_weather, WeatherPy.fetch_weather, jget]

/-- Claim C7: the media loop partitions rows by `type` — the `images`
component is exactly the paths of the rows with `type == 0` and the `videos`
component exactly the paths of the rows with `type == 1`, so a row with any
other `type` value contributes to neither. -/
theorem processMedia_partitions_by_type :
    ∀ (rows : List MediaRow),
      (processMedia rows).1
          = (rows.filter (fun m => decide (m.type = JVal.num 0))).map MediaRow.path
      ∧ (processMedia rows).2
          = (rows.filter (fun m => decide (m.type = JVal.num 1))).map MediaRow.path := by
  intro rows
  have h := processMedia_aux rows ([], [])
  constructor
  · rw [show processMedia rows = _ from h]
    simp
  · rw [show processMedia rows = _ from h]
    simp

/-- Claim C8: calling `get_product_info` with the empty string as the name
filter is identical to calling it with the filter absent, because `if name:`
is false for the empty string and the `ilike` filter is never attached. -/
theorem get_product_info_empty_name_filter :
    ∀ (primary : Upstream (List ProductRow))
      (mediaStore : String → Upstream (List MediaRow)) (uid : String),
      get_product_info primary mediaStore uid (some "")
        = get_product_info primary mediaStore uid none := by
  intro primary mediaStore uid
  cases primary with
  | raise c => rfl
  | ok rows =>
      have ht : truthy (some "") = false := by decide
      have ht2 : truthy (none : Option String) = false := rfl
      have hf : filteredRows rows uid (some "") = filteredRows rows uid none := by
        simp [filteredRows, ht, ht2]
      rw [get_product_info_ok, get_product_info_ok, hf]

/-- Claim C9: whenever the response contains a `current_weather` object, the
`main.py`/`fastmcp.py` `get_weather` returns a success payload in which every
field read via `.get` is projected, an absent field becoming null; in
particular the all-fields-absent object yields five nulls and no error. -/
theorem get_weather_missing_fields_null :
    (∀ (cw : CurrentWeather),
        get_weather (.ok ⟨some cw⟩)
          = [("temperature", optNum cw.temperature),
             ("windspeed", optNum cw.windspeed),
             ("winddirection", optNum cw.winddirection),
             ("weathercode", optNum cw.weathercode),
             ("time", optStr cw.time)])
    ∧ get_weather (.ok ⟨some { temperature := none, windspeed := none,
                               winddirection := none, weathercode := none, time := none }⟩)
        = [("temperature", .null), ("windspeed", .null), ("winddirection", .null),
           ("weathercode", .null), ("time", .null)]
    ∧ jget (get_weather (.ok ⟨some { temperature := none, windspeed := none,
                                     winddirection := none, weathercode := none,
                                     time := none }⟩)) "error" = none := by
  refine ⟨fun cw => rfl, rfl, ?_⟩
  simp [get_weather, optNum, optStr, jget]

/-- Claim C10: `get_exchange_rate` performs no validation on `amount` — for
every rational amount, zero and negatives included, a successful lookup
echoes `amount` verbatim and sets `converted = round(rate * amount, 4)`;
concretely, amount `-10` at rate `0.92` gives `converted = -9.2 < 0`. -/
theorem get_exchange_rate_amount_unvalidated :
    (∀ (src dst : String) (amount : ℚ) (data : RatesData) (rate : ℚ),
        dictGet data.rates (strUpper dst) = some rate →
        jget (get_exchange_rate src dst amount (.ok data)) "amount" = some (.num amount)
        ∧ jget (get_exchange_rate src dst amount (.ok data)) "converted"
            = some (.num (pyRound4 (rate * amount))))
    ∧ jget (get_exchange_rate "usd" "eur" (-10) (.ok c3Data)) "converted"
        = some (.num (-(46:ℚ)/5))
    ∧ (-(46:ℚ)/5 < 0) := by
  refine ⟨?_, ?_, by norm_num⟩
  · intro src dst amount data rate h
    have he := get_exchange_rate_found src dst amount data rate h
    constructor
    · rw [he]; simp [jget]
    · rw [he]; simp [jget]
  · have hu : strUpper "eur" = "EUR" := by decide
    have h : dictGet c3Data.rates (strUpper "eur") = some ((92:ℚ)/100) := by
      rw [hu]; simp [c3Data, dictGet]
    have he := get_exchange_rate_found "usd" "eur" (-10) c3Data ((92:ℚ)/100) h
    rw [he]
    have hc : pyRound4 ((92:ℚ)/100 * (-10)) = -(46:ℚ)/5 := by
      norm_num [pyRound4, roundHalfEven]
    rw [hc]
    simp [jget]

/-- Claim C10, witness: amount `0` is accepted and echoed verbatim. -/
theorem get_exchange_rate_amount_unvalidated_witness :
    jget (get_exchange_rate "x" "eur" 0 (.ok c3Data)) "amount" = some (.num 0) := by
  have hu : strUpper "eur" = "EUR" := by decide
  have h : dictGet c3Data.rates (strUpper "eur") = some ((92:ℚ)/100) := by
    rw [hu]; simp [c3Data, dictGet]
  exact (get_exchange_rate_amount_unvalidated.1 "x" "eur" 0 c3Data ((92:ℚ)/100) h).1
